import Mathlib

/-!
Verification development for the calendar/sheet sync repository.

The repository contains two source files, `src/main.js` (entry points and
orchestration glue) and `src/config.js` (the `Config` object: settings,
column schema, custom field definitions, dot-path get/set, and structural
validation).  The remaining components named by the design document
(SyncEngine, ConflictResolver, SheetsService, ErrorHandler) are callers or
callees that are not part of the repository; where a theorem depends on
them they are modelled from the design document and the definition says so
in its doc comment.

Conventions of the embedding:
- JavaScript values reachable through the configuration object are modelled
  by `JSValue`.  JavaScript arrays are objects whose keys are the decimal
  index strings, so `JSValue` has no separate array constructor; the
  `HEADERS` array of `config.js` is embedded as an object with keys
  "0" .. "14".  `typeof v === 'object'` therefore holds exactly for
  `JSValue.obj` and `JSValue.null`.
- JavaScript exceptions are modelled with `Except String`; a caught and
  rethrown exception stays in the `.error` constructor.
- Logger.log calls are pure logging and are not modelled;
  `ErrorHandler.handleError(context, error)` calls are modelled as an
  explicit list of (context, message) pairs returned by the function that
  performs them.
-/

/-! ## The JavaScript value model -/

/-- Model of the JavaScript values stored in the configuration object.
Numbers in `config.js` are all integers, so `num` carries `Int`.  Arrays
are JavaScript objects with index keys and are represented with `obj`. -/
inductive JSValue where
  | null
  | bool (b : Bool)
  | num (n : Int)
  | str (s : String)
  | obj (fields : List (String × JSValue))

/-- First-match key lookup in a JavaScript object, i.e. `key in o` together
with the read `o[key]`. -/
def lookupField : List (String × JSValue) → String → Option JSValue
  | [], _ => none
  | (k, v) :: rest, key => if k = key then some v else lookupField rest key

/-- The JavaScript property write `o[key] = v`: an existing key keeps its
position and is overwritten, a new key is appended. -/
def upsertField : List (String × JSValue) → String → JSValue → List (String × JSValue)
  | [], key, v => [(key, v)]
  | (k, w) :: rest, key, v =>
      if k = key then (key, v) :: rest else (k, w) :: upsertField rest key v

mutual

/-- `true` when no `JSValue.null` occurs anywhere inside the value.  The
configuration object of `config.js` contains no `null`, and `Config.set`
descending through a `null` intermediate is the one case where it throws
(in JavaScript `typeof null === 'object'`, so `null` is not replaced by a
fresh object and the subsequent property access throws a TypeError). -/
def noNull : JSValue → Bool
  | .null => false
  | .obj fs => noNullFields fs
  | _ => true

/-- `noNull` on every value of a field list. -/
def noNullFields : List (String × JSValue) → Bool
  | [] => true
  | (_, v) :: rest => noNull v && noNullFields rest

end

/-- Model of `path.split('.')` from JavaScript: accumulates the characters
of the current segment (in reverse) and cuts at every dot.  The result is
never the empty list; `"".split('.')` is `[""]`. -/
def splitPathAux : List Char → List Char → List String
  | [], acc => [String.mk acc.reverse]
  | ch :: rest, acc =>
      if ch = '.' then String.mk acc.reverse :: splitPathAux rest []
      else splitPathAux rest (ch :: acc)

/-- `path.split('.')` on a `String`. -/
def splitPath (path : String) : List String := splitPathAux path.data []

/-- The loop of `Config.get` from `config.js` over an already split key
list: at each step the walk continues only when the current value is a
truthy object that has the key (`value && typeof value === 'object' &&
key in value`); otherwise the default is returned.  `JSValue.null` is
falsy and every non-object is either falsy or fails the typeof test, so
both fall to the default branch. -/
def getPath : JSValue → List String → JSValue → JSValue
  | v, [], _ => v
  | .obj fs, key :: keys, d =>
      match lookupField fs key with
      | some v => getPath v keys d
      | none => d
  | _, _ :: _, d => d

/-- `Config.get(path, defaultValue)` from `config.js`, acting on an
explicit receiver value instead of the mutable global `this`.  The
try/catch of the source is dead code (no statement in the loop can throw),
so the embedding is a total function. -/
def Config.get (c : JSValue) (path : String) (d : JSValue) : JSValue :=
  getPath c (splitPath path) d

/-- The walk of `Config.set` from `config.js` over the intermediate keys
and the final write `current[lastKey] = value`.  A missing or
non-`typeof`-object intermediate is replaced by a fresh empty object; an
object intermediate is descended into; a `null` intermediate is kept
(`typeof null === 'object'`) and the next property access on it throws,
modelled by the `.error` result, mirroring the rethrow in the source.  A
primitive receiver likewise throws.  On error the partial materializations
that the mutating JavaScript original leaves behind are discarded; no
theorem below observes the receiver after a failed set. -/
def setWalk : JSValue → List String → String → JSValue → Except String JSValue
  | .obj fs, [], lastKey, v => .ok (.obj (upsertField fs lastKey v))
  | .obj fs, key :: keys, lastKey, v =>
      let child : JSValue :=
        match lookupField fs key with
        | some (.obj cfs) => .obj cfs
        | some .null => .null
        | _ => .obj []
      match setWalk child keys lastKey v with
      | .ok child2 => .ok (.obj (upsertField fs key child2))
      | .error e => .error e
  | _, _, _, _ => .error "TypeError"

/-- `Config.set(path, value)` from `config.js` on an explicit receiver:
`keys = path.split('.')`, `lastKey = keys.pop()`, walk the remaining keys
and write `value` at `lastKey`.  `split` never returns an empty list, so
the `getLastD` default is never used. -/
def Config.set (c : JSValue) (path : String) (v : JSValue) : Except String JSValue :=
  let keys := splitPath path
  setWalk c keys.dropLast (keys.getLastD "") v

/-- Specification-side reading of dot-path lookup, written from the words
of the claim: the nested value reached by following each key of the path
while every key along the path exists in the object at that level, and
failure (`none`) as soon as a key is absent or the current value is not an
object.  Compared with the source-derived `Config.get` below. -/
def follow : JSValue → List String → Option JSValue
  | v, [] => some v
  | .obj fs, key :: keys =>
      match lookupField fs key with
      | some v => follow v keys
      | none => none
  | _, _ :: _ => none

/-! ## Typed embedding of the configuration data -/

/-- The `type` discriminator of a custom field definition in `config.js`. -/
inductive FieldType where
  | number
  | text
deriving DecidableEq

/-- A concrete default value of a custom field (`3` or `''`). -/
inductive FieldValue where
  | num (n : Int)
  | text (s : String)
deriving DecidableEq

/-- One entry of `Config.CUSTOM_FIELDS` in `config.js`: a declarative
custom field definition.  `min`/`max` are present on the numeric field,
`maxLength` on the text field; absent properties are `none`. -/
structure FieldDef where
  column : String
  name : String
  type : FieldType
  min : Option Int := none
  max : Option Int := none
  maxLength : Option Int := none
  default : FieldValue
  validation : String
deriving DecidableEq

/-- `Config.CUSTOM_FIELDS` from `config.js`, verbatim. -/
def Config.CUSTOM_FIELDS : List (String × FieldDef) :=
  [("PRIORITY",
    { column := "L"
      name := "Priority"
      type := .number
      min := some 1
      max := some 5
      default := .num 3
      validation := "Must be a number between 1 and 5" }),
   ("NOTES",
    { column := "O"
      name := "Notes"
      type := .text
      maxLength := some 500
      default := .text ""
      validation := "Text up to 500 characters" })]

/-- `Config.COLUMNS` from `config.js`: the column letter of each field, in
declaration order. -/
def Config.COLUMNS : List (String × String) :=
  [("EVENT_ID", "A"), ("TITLE", "B"), ("START_DATE", "C"), ("START_TIME", "D"),
   ("END_DATE", "E"), ("END_TIME", "F"), ("ALL_DAY", "G"), ("DESCRIPTION", "H"),
   ("LOCATION", "I"), ("ATTENDEES", "J"), ("RECURRENCE", "K"), ("PRIORITY", "L"),
   ("LAST_MODIFIED", "M"), ("SYNC_STATUS", "N"), ("NOTES", "O")]

/-- `Config.HEADERS` from `config.js`: the spreadsheet header row texts, in
column order. -/
def Config.HEADERS : List String :=
  ["Event ID", "Title", "Start Date", "Start Time", "End Date", "End Time",
   "All Day", "Description", "Location", "Attendees", "Recurrence", "Priority",
   "Last Modified", "Sync Status", "Notes"]

/-- The `CALENDAR` settings object of `config.js`. -/
structure CalendarSettings where
  PRIMARY_CALENDAR_ID : String
  TIME_ZONE : String
  MAX_EVENTS_PER_REQUEST : Int
  LOOK_AHEAD_DAYS : Int
  LOOK_BACK_DAYS : Int
deriving DecidableEq

/-- The `SHEETS` settings object of `config.js`. -/
structure SheetsSettings where
  SPREADSHEET_NAME : String
  WORKSHEET_NAME : String
  HEADER_ROW : Int
  DATA_START_ROW : Int
  FREEZE_ROWS : Int
  AUTO_RESIZE_COLUMNS : Bool
deriving DecidableEq

/-- The `SYNC` settings object of `config.js`. -/
structure SyncSettings where
  BATCH_SIZE : Int
  MAX_RETRIES : Int
  RETRY_DELAY_MS : Int
  CONFLICT_RESOLUTION : String
  SYNC_INTERVAL_MINUTES : Int
  ENABLE_REAL_TIME : Bool
deriving DecidableEq

/-- The slice of the `Config` object that `Config.validate` reads: the
settings groups it checks and the custom field definitions. -/
structure ConfigData where
  CALENDAR : CalendarSettings
  SHEETS : SheetsSettings
  SYNC : SyncSettings
  CUSTOM_FIELDS : List (String × FieldDef)
deriving DecidableEq

/-- The concrete configuration values of `config.js` (the slice read by
`Config.validate`). -/
def theConfig : ConfigData :=
  { CALENDAR :=
      { PRIMARY_CALENDAR_ID := "primary"
        TIME_ZONE := "America/Los_Angeles"
        MAX_EVENTS_PER_REQUEST := 2500
        LOOK_AHEAD_DAYS := 365
        LOOK_BACK_DAYS := 30 }
    SHEETS :=
      { SPREADSHEET_NAME := "Calendar Sync Data"
        WORKSHEET_NAME := "Events"
        HEADER_ROW := 1
        DATA_START_ROW := 2
        FREEZE_ROWS := 1
        AUTO_RESIZE_COLUMNS := true }
    SYNC :=
      { BATCH_SIZE := 100
        MAX_RETRIES := 3
        RETRY_DELAY_MS := 1000
        CONFLICT_RESOLUTION := "LAST_WRITE_WINS"
        SYNC_INTERVAL_MINUTES := 15
        ENABLE_REAL_TIME := true }
    CUSTOM_FIELDS := Config.CUSTOM_FIELDS }

/-- `Config.validate()` from `config.js`, over an explicit receiver.  The
four settings checks push their fixed messages (JavaScript string
falsiness on the two string settings is equality with `""`); the loop over
`Object.entries(this.CUSTOM_FIELDS)` pushes one message per field whose
`column` or `name` is falsy.  The try/catch of the source cannot fire on
this data (no statement throws), so the embedding is total and the
function never raises. -/
def Config.validate (c : ConfigData) : List String :=
  (if c.CALENDAR.PRIMARY_CALENDAR_ID = "" then ["CALENDAR.PRIMARY_CALENDAR_ID is required"] else []) ++
  (if c.SHEETS.SPREADSHEET_NAME = "" then ["SHEETS.SPREADSHEET_NAME is required"] else []) ++
  (if c.SYNC.BATCH_SIZE ≤ 0 then ["SYNC.BATCH_SIZE must be greater than 0"] else []) ++
  (if c.CALENDAR.LOOK_AHEAD_DAYS ≤ 0 then ["CALENDAR.LOOK_AHEAD_DAYS must be greater than 0"] else []) ++
  c.CUSTOM_FIELDS.filterMap (fun p =>
    if p.2.column = "" ∨ p.2.name = "" then
      some ("Custom field " ++ p.1 ++ " missing required properties")
    else none)

/-- A configuration whose single custom field lacks a column slot, used to
exercise the error branch of `Config.validate`. -/
def brokenField : FieldDef :=
  { column := ""
    name := "Broken"
    type := .text
    default := .text ""
    validation := "" }

/-- `theConfig` with its custom fields replaced by the broken one. -/
def badConfig : ConfigData :=
  { theConfig with CUSTOM_FIELDS := [("BROKEN", brokenField)] }

/-- The data fields of the `Config` object literal of `config.js`, embedded
as a JavaScript object value for the dot-path `get`/`set` theorems.  The
`HEADERS` array is an object with index keys (see the array convention in
the header comment); the function-valued properties (`get`, `set`,
`getUserConfig`, `setUserConfig`, `initializeUserConfig`, `validate`) are
not data and are embedded separately as Lean functions. -/
def configFields : List (String × JSValue) :=
  [("APP", .obj
     [("NAME", .str "Calendar-Sheets Sync"),
      ("VERSION", .str "1.0.0"),
      ("AUTHOR", .str "Calendar Sync App")]),
   ("CALENDAR", .obj
     [("PRIMARY_CALENDAR_ID", .str "primary"),
      ("TIME_ZONE", .str "America/Los_Angeles"),
      ("MAX_EVENTS_PER_REQUEST", .num 2500),
      ("LOOK_AHEAD_DAYS", .num 365),
      ("LOOK_BACK_DAYS", .num 30)]),
   ("SHEETS", .obj
     [("SPREADSHEET_NAME", .str "Calendar Sync Data"),
      ("WORKSHEET_NAME", .str "Events"),
      ("HEADER_ROW", .num 1),
      ("DATA_START_ROW", .num 2),
      ("FREEZE_ROWS", .num 1),
      ("AUTO_RESIZE_COLUMNS", .bool true)]),
   ("SYNC", .obj
     [("BATCH_SIZE", .num 100),
      ("MAX_RETRIES", .num 3),
      ("RETRY_DELAY_MS", .num 1000),
      ("CONFLICT_RESOLUTION", .str "LAST_WRITE_WINS"),
      ("SYNC_INTERVAL_MINUTES", .num 15),
      ("ENABLE_REAL_TIME", .bool true)]),
   ("COLUMNS", .obj
     [("EVENT_ID", .str "A"), ("TITLE", .str "B"), ("START_DATE", .str "C"),
      ("START_TIME", .str "D"), ("END_DATE", .str "E"), ("END_TIME", .str "F"),
      ("ALL_DAY", .str "G"), ("DESCRIPTION", .str "H"), ("LOCATION", .str "I"),
      ("ATTENDEES", .str "J"), ("RECURRENCE", .str "K"), ("PRIORITY", .str "L"),
      ("LAST_MODIFIED", .str "M"), ("SYNC_STATUS", .str "N"), ("NOTES", .str "O")]),
   ("HEADERS", .obj
     [("0", .str "Event ID"), ("1", .str "Title"), ("2", .str "Start Date"),
      ("3", .str "Start Time"), ("4", .str "End Date"), ("5", .str "End Time"),
      ("6", .str "All Day"), ("7", .str "Description"), ("8", .str "Location"),
      ("9", .str "Attendees"), ("10", .str "Recurrence"), ("11", .str "Priority"),
      ("12", .str "Last Modified"), ("13", .str "Sync Status"), ("14", .str "Notes")]),
   ("CUSTOM_FIELDS", .obj
     [("PRIORITY", .obj
        [("column", .str "L"), ("name", .str "Priority"), ("type", .str "number"),
         ("min", .num 1), ("max", .num 5), ("default", .num 3),
         ("validation", .str "Must be a number between 1 and 5")]),
      ("NOTES", .obj
        [("column", .str "O"), ("name", .str "Notes"), ("type", .str "text"),
         ("maxLength", .num 500), ("default", .str ""),
         ("validation", .str "Text up to 500 characters")])]),
   ("ERROR", .obj
     [("LOG_LEVEL", .str "INFO"),
      ("MAX_LOG_ENTRIES", .num 1000),
      ("EMAIL_ON_ERROR", .bool false),
      ("ERROR_EMAIL", .str ""),
      ("SLACK_WEBHOOK", .str "")]),
   ("FEATURES", .obj
     [("MULTI_CALENDAR", .bool false),
      ("ADVANCED_RECURRENCE", .bool false),
      ("ATTENDEE_MANAGEMENT", .bool true),
      ("CUSTOM_NOTIFICATIONS", .bool false),
      ("ANALYTICS", .bool false),
      ("EXPORT_IMPORT", .bool false)])]

/-! ## The sync engine

The SyncEngine, DiffEngine, ConflictResolver and Orchestrator are not under
`src/`; `main.js` only calls them.  They are modelled from the design
document (sections 4.3 to 4.6).  A sync universe is keyed by the stable
record `id`; the design document guarantees that at most one change
operation is emitted per id within a pass and that operations for distinct
ids are independent, so the state is represented id by id: a snapshot pair
plus the prior-synced timestamps recorded by the mapping/cursor for that
id. -/

/-- The `syncStatus` values of the common record shape (design document,
section 3). -/
inductive SyncStatus where
  | synced
  | pending
  | conflict
  | error
  | deleted
deriving DecidableEq

/-- Modelled from the spec: the common internal record shape (design
document, section 3) restricted to the fields the diff and resolution
algorithms consult: an opaque content blob standing for the mapped fields,
the `lastModifiedAt` timestamp, and the `syncStatus`. -/
structure SyncRecord where
  content : String
  lastModifiedAt : Nat
  syncStatus : SyncStatus
deriving DecidableEq

/-- The configurable conflict strategies (design document, section 4.4;
`config.js` names the same three options for `SYNC.CONFLICT_RESOLUTION`). -/
inductive Strategy where
  | lastWriteWins
  | calendarWins
  | sheetsWins
deriving DecidableEq

/-- Modelled from the spec: the change operations of the diff engine
(design document, section 4.3).  Update and create operations carry the
record whose content they write.  The two delete-versus-modify conflict
kinds record which side deleted the record while the other side modified
it since the last sync. -/
inductive ChangeOp where
  | createOnSheet (c : SyncRecord)
  | createOnCalendar (s : SyncRecord)
  | updateSheet (c : SyncRecord)
  | updateCalendar (s : SyncRecord)
  | deleteOnSheet
  | deleteOnCalendar
  | conflict (c s : SyncRecord)
  | conflictDeletedOnSheet (c : SyncRecord)
  | conflictDeletedOnCalendar (s : SyncRecord)
deriving DecidableEq

/-- The per-id slice of a sync universe: the calendar-side record, the
sheet-side record, and the prior-synced `lastModifiedAt` pair recorded by
the mapping/cursor at the last committed pass (`none` when the id was
never synced). -/
structure Cell where
  cal : Option SyncRecord
  sheet : Option SyncRecord
  prior : Option (Nat × Nat)
deriving DecidableEq

/-- The pass counters of the summary (design document, section 6,
reporting sink). -/
structure Counters where
  created : Nat
  updated : Nat
  deleted : Nat
  conflicts : Nat
deriving DecidableEq

/-- The all-zero counters. -/
def Counters.zero : Counters := ⟨0, 0, 0, 0⟩

/-- Pointwise sum of counters. -/
def Counters.add (a b : Counters) : Counters :=
  ⟨a.created + b.created, a.updated + b.updated,
   a.deleted + b.deleted, a.conflicts + b.conflicts⟩

/-- Modelled from the spec: the diff algorithm of section 4.3 for one id.
Present on both sides with a recorded prior value: unchanged on both is a
no-op, changed on exactly one side is an UPDATE toward the other, changed
on both is a CONFLICT.  Present on both sides with no recorded prior value:
both sides changed since the (nonexistent) last sync, hence a CONFLICT.
Present on exactly one side and never seen: a CREATE toward the missing
side.  Recorded but missing from one side: a propagating DELETE toward the
side that still has it, unless that side shows a modification newer than
the recorded value, which is a delete-versus-modify CONFLICT.  Absent from
both sides: nothing. -/
def diffOne (cell : Cell) : Option ChangeOp :=
  match cell.cal, cell.sheet, cell.prior with
  | some c, some s, some (pc, ps) =>
      if c.lastModifiedAt = pc then
        if s.lastModifiedAt = ps then none
        else some (.updateCalendar s)
      else
        if s.lastModifiedAt = ps then some (.updateSheet c)
        else some (.conflict c s)
  | some c, some s, none => some (.conflict c s)
  | some c, none, none => some (.createOnSheet c)
  | none, some s, none => some (.createOnCalendar s)
  | some c, none, some (pc, _) =>
      if c.lastModifiedAt = pc then some .deleteOnCalendar
      else some (.conflictDeletedOnSheet c)
  | none, some s, some (_, ps) =>
      if s.lastModifiedAt = ps then some .deleteOnSheet
      else some (.conflictDeletedOnCalendar s)
  | none, none, _ => none

/-- The resolved record: its `syncStatus` becomes SYNCED (design document,
section 4.4), content and timestamp unchanged. -/
def markSynced (r : SyncRecord) : SyncRecord :=
  { r with syncStatus := .synced }

/-- Modelled from the spec: `ConflictResolver.resolve` (design document,
section 4.4).  LAST_WRITE_WINS produces an UPDATE toward the side with the
older timestamp carrying the fresher record, with an exact tie broken in
favor of the calendar side; CALENDAR_WINS and SHEETS_WINS pick their side
unconditionally.  The resolution of a delete-versus-modify conflict is not
spelled out by the document (section 4.3 only defers it); it is modelled as
the winning side per strategy, LAST_WRITE_WINS favoring the surviving
modification, which is newer than the recorded synced state the deletion
reflects.  Non-conflict operations pass through unchanged. -/
def ConflictResolver.resolve (strat : Strategy) : ChangeOp → ChangeOp
  | .conflict c s =>
      match strat with
      | .lastWriteWins =>
          if s.lastModifiedAt > c.lastModifiedAt then .updateCalendar (markSynced s)
          else .updateSheet (markSynced c)
      | .calendarWins => .updateSheet (markSynced c)
      | .sheetsWins => .updateCalendar (markSynced s)
  | .conflictDeletedOnSheet c =>
      match strat with
      | .sheetsWins => .deleteOnCalendar
      | _ => .createOnSheet (markSynced c)
  | .conflictDeletedOnCalendar s =>
      match strat with
      | .calendarWins => .deleteOnSheet
      | _ => .createOnCalendar (markSynced s)
  | op => op

/-- Modelled from the spec: applying one resolved operation to the two
sides of a cell (sections 4.5 and 4.6 reduced to one id).  A create or
update writes the carried record to its target side; a delete removes the
record from its target side.  Unresolved conflict operations never reach
the writer (the pass resolves first) and leave the cell unchanged. -/
def applyOne : ChangeOp → Cell → Option SyncRecord × Option SyncRecord
  | .createOnSheet c, cell => (cell.cal, some c)
  | .createOnCalendar s, cell => (some s, cell.sheet)
  | .updateSheet c, cell => (cell.cal, some c)
  | .updateCalendar s, cell => (some s, cell.sheet)
  | .deleteOnSheet, cell => (cell.cal, none)
  | .deleteOnCalendar, cell => (none, cell.sheet)
  | _, cell => (cell.cal, cell.sheet)

/-- Modelled from the spec: COMMITTING for one id (design document,
section 4.6): the new mapping/cursor records the current `lastModifiedAt`
of each side when the id exists on both, and drops the id otherwise. -/
def commitOne (cal sheet : Option SyncRecord) : Option (Nat × Nat) :=
  match cal, sheet with
  | some c, some s => some (c.lastModifiedAt, s.lastModifiedAt)
  | _, _ => none

/-- The summary contribution of one emitted operation: creates, updates and
deletes count in their counter, every conflict kind counts in the conflict
counter (design document, section 4.4: every resolution is reported). -/
def opCounters : ChangeOp → Counters
  | .createOnSheet _ => ⟨1, 0, 0, 0⟩
  | .createOnCalendar _ => ⟨1, 0, 0, 0⟩
  | .updateSheet _ => ⟨0, 1, 0, 0⟩
  | .updateCalendar _ => ⟨0, 1, 0, 0⟩
  | .deleteOnSheet => ⟨0, 0, 1, 0⟩
  | .deleteOnCalendar => ⟨0, 0, 1, 0⟩
  | .conflict _ _ => ⟨0, 0, 0, 1⟩
  | .conflictDeletedOnSheet _ => ⟨0, 0, 0, 1⟩
  | .conflictDeletedOnCalendar _ => ⟨0, 0, 0, 1⟩

/-- One full pipeline step for one id: diff, resolve, write, commit.  The
result is the new cell and the summary contribution of the id. -/
def stepCell (strat : Strategy) (cell : Cell) : Cell × Counters :=
  match diffOne cell with
  | none => (⟨cell.cal, cell.sheet, commitOne cell.cal cell.sheet⟩, Counters.zero)
  | some op =>
      let pair := applyOne (ConflictResolver.resolve strat op) cell
      (⟨pair.1, pair.2, commitOne pair.1 pair.2⟩, opCounters op)

/-- Modelled from the spec: `SyncEngine.performFullSync`, called by
`main.js` but not part of the repository.  One full bidirectional pass over
a sync universe given as per-id cells: every id is diffed, conflicts are
resolved with the given strategy, the resolved operations are applied and
the mapping/cursor is committed; the summary sums the per-id counters. -/
def SyncEngine.performFullSync (strat : Strategy) :
    List (String × Cell) → List (String × Cell) × Counters
  | [] => ([], Counters.zero)
  | (i, cell) :: rest =>
      let s := stepCell strat cell
      let r := SyncEngine.performFullSync strat rest
      ((i, s.1) :: r.1, s.2.add r.2)

/-- The status of a pass summary (design document, section 4.6: a pass
completes, is skipped because the lock is held, or ends in the ERROR
state with a cause). -/
inductive PassStatus where
  | completed
  | skippedConcurrentRun
  | errored (cause : String)
deriving DecidableEq

/-- The summary returned by the orchestrator for one pass. -/
structure PassSummary where
  status : PassStatus
  counters : Counters
deriving DecidableEq

/-- The world the orchestrator acts on: the externally persisted sync lock
and the sync universe (both side snapshots plus mapping/cursor, per id). -/
structure OrchestratorState where
  lockHeld : Bool
  cells : List (String × Cell)
deriving DecidableEq

/-- Modelled from the spec: the full-pass entry point of the orchestrator
(design document, sections 4.6 and 5).  Acquiring the lock fails exactly
when it is already held; the pass then ends immediately with a
SKIPPED_CONCURRENT_RUN summary, zero counters, and the world untouched.
Otherwise the pass runs the engine under the lock and releases it. -/
def Orchestrator.runFullPass (strat : Strategy) (w : OrchestratorState) :
    OrchestratorState × PassSummary :=
  if w.lockHeld then
    (w, ⟨.skippedConcurrentRun, Counters.zero⟩)
  else
    let r := SyncEngine.performFullSync strat w.cells
    (⟨false, r.1⟩, ⟨.completed, r.2⟩)

/-! ## The entry points of main.js

The wrappers in `main.js` delegate to the engine and to external services;
the outcome of the delegated call is passed in explicitly as an
`Except String` value (a thrown JavaScript error is the `.error` case).
Each wrapper also returns the list of `(context, message)` pairs it hands
to `ErrorHandler.handleError`. -/

/-- `performFullSync()` from `src/main.js`: logs, runs
`SyncEngine.performFullSync()` and returns its result; on a thrown error it
logs, calls `ErrorHandler.handleError('performFullSync', error)` and
rethrows the error to the caller. -/
def Main.performFullSync (engine : Except String PassSummary) :
    Except String PassSummary × List (String × String) :=
  match engine with
  | .ok r => (.ok r, [])
  | .error e => (.error e, [("performFullSync", e)])

/-- `onSheetEdit(e)` from `src/main.js`: when the edit is outside the sync
range it returns `undefined` (modelled as `none`) without calling
`SyncEngine.syncSheetsToCalendar`; otherwise it calls the engine and
returns its result, and a thrown error is swallowed after
`ErrorHandler.handleError('onSheetEdit', error)` (no rethrow).  The second
component records whether `SyncEngine.syncSheetsToCalendar` was invoked;
the third is the error-handler call list. -/
def Main.onSheetEdit {α : Type} (isEditInSyncRange : α → Bool)
    (syncSheetsToCalendar : α → Except String PassSummary) (e : α) :
    Option PassSummary × Bool × List (String × String) :=
  if !(isEditInSyncRange e) then (none, false, [])
  else
    match syncSheetsToCalendar e with
    | .ok r => (some r, true, [])
    | .error err => (none, true, [("onSheetEdit", err)])

/-! ## Theorems -/

/-- Writing a key and reading it back yields the written value. -/
theorem lookupField_upsertField_self (fs : List (String × JSValue)) (k : String) (v : JSValue) :
    lookupField (upsertField fs k v) k = some v := by
  induction fs with
  | nil => simp [upsertField, lookupField]
  | cons p rest ih =>
      obtain ⟨pk, pv⟩ := p
      by_cases h : pk = k
      · subst h; simp [upsertField, lookupField]
      · simp [upsertField, lookupField, h, ih]

/-- A value looked up in a null-free field list is null-free. -/
theorem noNull_of_lookupField (fs : List (String × JSValue)) (k : String) (w : JSValue)
    (hf : noNullFields fs = true) (hl : lookupField fs k = some w) : noNull w = true := by
  induction fs with
  | nil => simp [lookupField] at hl
  | cons p rest ih =>
      obtain ⟨pk, pv⟩ := p
      rw [noNullFields, Bool.and_eq_true] at hf
      by_cases h : pk = k
      · rw [lookupField, if_pos h] at hl
        cases hl
        exact hf.1
      · rw [lookupField, if_neg h] at hl
        exact ih hf.2 hl

/-- The walk of `Config.set` over a null-free object succeeds, and reading
the same key list afterwards returns the written value. -/
theorem setWalk_getPath (ks : List String) (fs : List (String × JSValue))
    (lastKey : String) (v d : JSValue) (hf : noNullFields fs = true) :
    ∃ c2, setWalk (.obj fs) ks lastKey v = .ok c2 ∧ getPath c2 (ks ++ [lastKey]) d = v := by
  induction ks generalizing fs with
  | nil =>
      refine ⟨.obj (upsertField fs lastKey v), rfl, ?_⟩
      simp [getPath, lookupField_upsertField_self]
  | cons k ks ih =>
      have hchild : ∃ cfs, (match lookupField fs k with
          | some (.obj cfs) => JSValue.obj cfs
          | some .null => JSValue.null
          | _ => JSValue.obj []) = JSValue.obj cfs ∧ noNullFields cfs = true := by
        cases hl : lookupField fs k with
        | none => exact ⟨[], rfl, rfl⟩
        | some w =>
            cases w with
            | null =>
                have := noNull_of_lookupField fs k _ hf hl
                rw [noNull] at this
                cases this
            | obj cfs =>
                refine ⟨cfs, rfl, ?_⟩
                have := noNull_of_lookupField fs k _ hf hl
                rwa [noNull] at this
            | bool b => exact ⟨[], rfl, rfl⟩
            | num n => exact ⟨[], rfl, rfl⟩
            | str s => exact ⟨[], rfl, rfl⟩
      obtain ⟨cfs, hcf, hcnn⟩ := hchild
      obtain ⟨c2, hset, hget⟩ := ih cfs hcnn
      refine ⟨.obj (upsertField fs k c2), ?_, ?_⟩
      · rw [setWalk]
        simp only [hcf, hset]
      · simp only [List.cons_append, getPath, lookupField_upsertField_self]
        exact hget

/-- The split of a path is never the empty list. -/
theorem splitPathAux_ne_nil (cs : List Char) (acc : List Char) :
    splitPathAux cs acc ≠ [] := by
  induction cs generalizing acc with
  | nil => simp [splitPathAux]
  | cons ch rest ih =>
      by_cases h : ch = '.'
      · simp [splitPathAux, h]
      · rw [splitPathAux, if_neg h]
        exact ih _

/-- `splitPath` is never the empty list. -/
theorem splitPath_ne_nil (path : String) : splitPath path ≠ [] :=
  splitPathAux_ne_nil path.data []

/-- A nonempty list is its own prefix-without-last plus its last element. -/
theorem dropLast_append_getLastD (l : List String) (d : String) (h : l ≠ []) :
    l.dropLast ++ [l.getLastD d] = l := by
  induction l generalizing d with
  | nil => exact absurd rfl h
  | cons a t ih =>
      cases t with
      | nil => simp
      | cons b m =>
          have htail : (b :: m : List String) ≠ [] := by simp
          rw [List.dropLast_cons₂, List.getLastD_cons, List.cons_append, ih a htail]

/-- `getPath` agrees with the spec-side `follow` walker: the followed value
when every key exists, the default otherwise. -/
theorem getPath_follow (ks : List String) (c : JSValue) (d : JSValue) :
    getPath c ks d = (follow c ks).getD d := by
  induction ks generalizing c with
  | nil => cases c <;> rfl
  | cons k ks ih =>
      cases c with
      | obj fs =>
          rw [getPath, follow]
          cases hl : lookupField fs k with
          | none => rfl
          | some v => exact ih v
      | null => rfl
      | bool b => rfl
      | num n => rfl
      | str s => rfl

/-- A step on a cell leaves it with no pending difference: each id is
either present on both sides with the mapping recording exactly the
current timestamps, or absent from both sides and from the mapping. -/
theorem diffOne_stepCell (strat : Strategy) (cell : Cell) :
    diffOne (stepCell strat cell).1 = none := by
  obtain ⟨cal, sheet, prior⟩ := cell
  cases cal with
  | none =>
      cases sheet with
      | none =>
          cases prior with
          | none => simp [stepCell, diffOne, commitOne]
          | some p => simp [stepCell, diffOne, commitOne]
      | some s =>
          cases prior with
          | none =>
              simp [stepCell, diffOne, ConflictResolver.resolve, applyOne, commitOne, markSynced]
          | some p =>
              obtain ⟨pc, ps⟩ := p
              by_cases h : s.lastModifiedAt = ps
              · simp [stepCell, diffOne, h, ConflictResolver.resolve, applyOne, commitOne]
              · cases strat <;>
                  simp [stepCell, diffOne, h, ConflictResolver.resolve, applyOne, commitOne,
                    markSynced]
  | some c =>
      cases sheet with
      | none =>
          cases prior with
          | none =>
              simp [stepCell, diffOne, ConflictResolver.resolve, applyOne, commitOne, markSynced]
          | some p =>
              obtain ⟨pc, ps⟩ := p
              by_cases h : c.lastModifiedAt = pc
              · simp [stepCell, diffOne, h, ConflictResolver.resolve, applyOne, commitOne]
              · cases strat <;>
                  simp [stepCell, diffOne, h, ConflictResolver.resolve, applyOne, commitOne,
                    markSynced]
      | some s =>
          cases prior with
          | none =>
              cases strat <;>
                · simp only [stepCell, diffOne, ConflictResolver.resolve, applyOne, commitOne,
                    markSynced]
                  split_ifs <;> simp_all [markSynced]
          | some p =>
              obtain ⟨pc, ps⟩ := p
              by_cases h1 : c.lastModifiedAt = pc <;> by_cases h2 : s.lastModifiedAt = ps
              · simp [stepCell, diffOne, h1, h2, commitOne]
              · simp [stepCell, diffOne, h1, h2, ConflictResolver.resolve, applyOne, commitOne]
              · simp [stepCell, diffOne, h1, h2, ConflictResolver.resolve, applyOne, commitOne]
              · cases strat <;>
                  · simp only [stepCell, diffOne, h1, h2, if_false, if_neg h1, if_neg h2,
                      ConflictResolver.resolve, applyOne, commitOne, markSynced]
                    split_ifs <;> simp_all [markSynced]

/-- A cell with no pending difference contributes zero counters. -/
theorem stepCell_of_diff_none (strat : Strategy) (cell : Cell) (h : diffOne cell = none) :
    (stepCell strat cell).2 = Counters.zero := by
  unfold stepCell
  rw [h]

/-- Claim C1: for every CONFLICT operation carrying a calendar-side record
and a sheet-side record, resolution under LAST_WRITE_WINS produces an
UPDATE toward the side whose record has the older `lastModifiedAt`,
carrying the record with the larger `lastModifiedAt` (content and
timestamp preserved, status marked SYNCED); an exact timestamp tie is
deterministically broken in favor of the calendar-side record. -/
theorem ConflictResolver.resolve_lastWriteWins_spec (c s : SyncRecord) :
    ((markSynced c).content = c.content ∧ (markSynced c).lastModifiedAt = c.lastModifiedAt ∧
     (markSynced s).content = s.content ∧ (markSynced s).lastModifiedAt = s.lastModifiedAt) ∧
    (c.lastModifiedAt < s.lastModifiedAt →
      ConflictResolver.resolve .lastWriteWins (.conflict c s) = .updateCalendar (markSynced s)) ∧
    (s.lastModifiedAt < c.lastModifiedAt →
      ConflictResolver.resolve .lastWriteWins (.conflict c s) = .updateSheet (markSynced c)) ∧
    (c.lastModifiedAt = s.lastModifiedAt →
      ConflictResolver.resolve .lastWriteWins (.conflict c s) = .updateSheet (markSynced c)) := by
  refine ⟨⟨rfl, rfl, rfl, rfl⟩, ?_, ?_, ?_⟩
  · intro h
    rw [ConflictResolver.resolve, if_pos h]
  · intro h
    rw [ConflictResolver.resolve, if_neg (by omega)]
  · intro h
    rw [ConflictResolver.resolve, if_neg (by omega)]

/-- Witness for C1: with calendar timestamp 5 against sheet timestamp 3 the
fresher calendar record wins and the update goes toward the sheet; with an
exact tie at 7 the calendar-side record is picked. -/
theorem ConflictResolver.resolve_lastWriteWins_spec_witness :
    (3 < 5) ∧
    ConflictResolver.resolve .lastWriteWins
        (.conflict ⟨"calendar content", 5, .pending⟩ ⟨"sheet content", 3, .pending⟩)
      = .updateSheet ⟨"calendar content", 5, .synced⟩ ∧
    ConflictResolver.resolve .lastWriteWins
        (.conflict ⟨"calendar content", 7, .pending⟩ ⟨"sheet content", 7, .pending⟩)
      = .updateSheet ⟨"calendar content", 7, .synced⟩ := by
  refine ⟨by decide, ?_, ?_⟩
  · exact (ConflictResolver.resolve_lastWriteWins_spec
      ⟨"calendar content", 5, .pending⟩ ⟨"sheet content", 3, .pending⟩).2.2.1 (by decide)
  · exact (ConflictResolver.resolve_lastWriteWins_spec
      ⟨"calendar content", 7, .pending⟩ ⟨"sheet content", 7, .pending⟩).2.2.2 rfl

/-- Claim C2: for every pair of side snapshots and cursor state (given per
id), running a full sync pass and then immediately a second full pass with
no intervening external changes yields a second-pass summary whose
created, updated, deleted and conflicts counters are all zero, for every
conflict strategy. -/
theorem SyncEngine.performFullSync_idempotent (strat : Strategy) (cells : List (String × Cell)) :
    (SyncEngine.performFullSync strat (SyncEngine.performFullSync strat cells).1).2
      = Counters.zero := by
  induction cells with
  | nil => rfl
  | cons p rest ih =>
      obtain ⟨i, cell⟩ := p
      have h2 : (stepCell strat (stepCell strat cell).1).2 = Counters.zero :=
        stepCell_of_diff_none strat _ (diffOne_stepCell strat cell)
      simp only [SyncEngine.performFullSync]
      rw [h2, ih]
      rfl

/-- Claim C3, counterexample: an engine run that throws (here with cause
"Sheets service unavailable") makes `performFullSync` in `main.js` rethrow
the error to its caller after recording it with the error handler; the
result is a thrown error, not a returned status object. -/
theorem Main.performFullSync_counterexample :
    Main.performFullSync (Except.error "Sheets service unavailable")
      = (Except.error "Sheets service unavailable",
         [("performFullSync", "Sheets service unavailable")]) := rfl

/-- Claim C3, amended: `performFullSync` in `main.js` forwards a returned
engine summary unchanged, and when the engine throws it records the error
cause with `ErrorHandler.handleError('performFullSync', error)` and
rethrows the same error to its caller instead of returning a status
object. -/
theorem Main.performFullSync_error_propagation :
    (∀ r, Main.performFullSync (Except.ok r) = (Except.ok r, [])) ∧
    (∀ e, Main.performFullSync (Except.error e)
        = (Except.error e, [("performFullSync", e)])) :=
  ⟨fun _ => rfl, fun _ => rfl⟩

/-- Claim C4: whenever the sync lock is already held at the moment a pass
starts, that pass ends immediately with a SKIPPED_CONCURRENT_RUN summary
and all counters zero, the world (including the in-flight state of the
pass holding the lock) is unchanged, and the outcome is not an error. -/
theorem Orchestrator.runFullPass_skipsWhenLocked (strat : Strategy) (w : OrchestratorState)
    (h : w.lockHeld = true) :
    Orchestrator.runFullPass strat w = (w, ⟨.skippedConcurrentRun, Counters.zero⟩) ∧
    ∀ cause, (Orchestrator.runFullPass strat w).2.status ≠ .errored cause := by
  constructor
  · rw [Orchestrator.runFullPass, if_pos h]
  · intro cause
    rw [Orchestrator.runFullPass, if_pos h]
    simp

/-- Witness for C4: a locked world with one pending calendar-side record is
returned unchanged with a skipped summary and zero counters. -/
theorem Orchestrator.runFullPass_skipsWhenLocked_witness :
    (OrchestratorState.mk true [("E1", ⟨some ⟨"a", 4, .pending⟩, none, none⟩)]).lockHeld = true ∧
    Orchestrator.runFullPass .lastWriteWins
        (OrchestratorState.mk true [("E1", ⟨some ⟨"a", 4, .pending⟩, none, none⟩)])
      = (OrchestratorState.mk true [("E1", ⟨some ⟨"a", 4, .pending⟩, none, none⟩)],
         ⟨.skippedConcurrentRun, Counters.zero⟩) :=
  ⟨rfl, (Orchestrator.runFullPass_skipsWhenLocked .lastWriteWins
      (OrchestratorState.mk true [("E1", ⟨some ⟨"a", 4, .pending⟩, none, none⟩)]) rfl).1⟩

/-- Claim C5: `Config.validate` returns a list of structural errors (it is
a total function, so it never raises); for every custom field lacking a
declared column slot or a name the list contains an error naming that
field; and when all checked settings and field definitions are complete
the list is empty. -/
theorem Config.validate_spec (c : ConfigData) :
    (∀ fn fd, (fn, fd) ∈ c.CUSTOM_FIELDS → fd.column = "" ∨ fd.name = "" →
      ("Custom field " ++ fn ++ " missing required properties") ∈ Config.validate c) ∧
    (c.CALENDAR.PRIMARY_CALENDAR_ID ≠ "" → c.SHEETS.SPREADSHEET_NAME ≠ "" →
      0 < c.SYNC.BATCH_SIZE → 0 < c.CALENDAR.LOOK_AHEAD_DAYS →
      (∀ fn fd, (fn, fd) ∈ c.CUSTOM_FIELDS → fd.column ≠ "" ∧ fd.name ≠ "") →
      Config.validate c = []) := by
  constructor
  · intro fn fd hmem hbad
    unfold Config.validate
    refine List.mem_append_right _ ?_
    refine List.mem_filterMap.mpr ⟨(fn, fd), hmem, ?_⟩
    exact if_pos hbad
  · intro h1 h2 h3 h4 hf
    unfold Config.validate
    rw [if_neg h1, if_neg h2, if_neg (by omega : ¬ c.SYNC.BATCH_SIZE ≤ 0),
      if_neg (by omega : ¬ c.CALENDAR.LOOK_AHEAD_DAYS ≤ 0)]
    rw [List.filterMap_eq_nil_iff.mpr ?_]
    · rfl
    · intro p hp
      obtain ⟨hc, hn⟩ := hf p.1 p.2 hp
      exact if_neg (not_or.mpr ⟨hc, hn⟩)

/-- Witness for C5: the configuration whose single custom field lacks a
column slot yields the error naming it, and the shipped configuration of
`config.js` validates to the empty error list. -/
theorem Config.validate_spec_witness :
    ("Custom field " ++ "BROKEN" ++ " missing required properties")
        ∈ Config.validate badConfig ∧
    Config.validate theConfig = [] := by
  constructor
  · refine (Config.validate_spec badConfig).1 "BROKEN" brokenField ?_ (Or.inl rfl)
    simp [badConfig, brokenField]
  · refine (Config.validate_spec theConfig).2 (by decide) (by decide) (by decide) (by decide) ?_
    intro fn fd hmem
    simp only [theConfig, Config.CUSTOM_FIELDS, List.mem_cons, List.not_mem_nil, or_false,
      Prod.mk.injEq] at hmem
    rcases hmem with ⟨h1, h2⟩ | ⟨h1, h2⟩ <;> subst h2 <;> exact ⟨by decide, by decide⟩

/-- Claim C6: the registered extension-field definitions are exactly a
numeric priority field with bounds 1 to 5 and default 3, and a free-text
notes field with maximum length 500 and default empty string, each with a
column slot and a name. -/
theorem Config.customFields_spec :
    Config.CUSTOM_FIELDS.length = 2 ∧
    (Config.CUSTOM_FIELDS.lookup "PRIORITY").map FieldDef.type = some .number ∧
    (Config.CUSTOM_FIELDS.lookup "PRIORITY").map FieldDef.min = some (some 1) ∧
    (Config.CUSTOM_FIELDS.lookup "PRIORITY").map FieldDef.max = some (some 5) ∧
    (Config.CUSTOM_FIELDS.lookup "PRIORITY").map FieldDef.default = some (.num 3) ∧
    (Config.CUSTOM_FIELDS.lookup "PRIORITY").map FieldDef.column = some "L" ∧
    (Config.CUSTOM_FIELDS.lookup "PRIORITY").map FieldDef.name = some "Priority" ∧
    (Config.CUSTOM_FIELDS.lookup "NOTES").map FieldDef.type = some .text ∧
    (Config.CUSTOM_FIELDS.lookup "NOTES").map FieldDef.maxLength = some (some 500) ∧
    (Config.CUSTOM_FIELDS.lookup "NOTES").map FieldDef.default = some (.text "") ∧
    (Config.CUSTOM_FIELDS.lookup "NOTES").map FieldDef.column = some "O" ∧
    (Config.CUSTOM_FIELDS.lookup "NOTES").map FieldDef.name = some "Notes" := by
  decide

/-- Claim C7, counterexample: the header text of the first and third
columns is "Event ID" and "Start Date", which differ from the schema
identifiers "EventID" and "StartDate", so the header strings do not match
the claimed identifier list verbatim. -/
theorem Config.headers_verbatim_counterexample :
    Config.HEADERS[0]? = some "Event ID" ∧ "Event ID" ≠ "EventID" ∧
    Config.HEADERS[2]? = some "Start Date" ∧ "Start Date" ≠ "StartDate" := by
  decide

/-- Claim C7, amended: the sheet-side row layout is the fixed 15-column
schema EVENT_ID..NOTES mapped in that order to columns A through O, and
the 15 header texts are, in order, "Event ID", "Title", "Start Date",
"Start Time", "End Date", "End Time", "All Day", "Description",
"Location", "Attendees", "Recurrence", "Priority", "Last Modified",
"Sync Status", "Notes" (several header texts contain a space and differ
from the schema identifiers). -/
theorem Config.headers_schema :
    Config.HEADERS.length = 15 ∧
    Config.HEADERS = ["Event ID", "Title", "Start Date", "Start Time", "End Date",
      "End Time", "All Day", "Description", "Location", "Attendees", "Recurrence",
      "Priority", "Last Modified", "Sync Status", "Notes"] ∧
    Config.COLUMNS.map Prod.fst = ["EVENT_ID", "TITLE", "START_DATE", "START_TIME",
      "END_DATE", "END_TIME", "ALL_DAY", "DESCRIPTION", "LOCATION", "ATTENDEES",
      "RECURRENCE", "PRIORITY", "LAST_MODIFIED", "SYNC_STATUS", "NOTES"] ∧
    Config.COLUMNS.map Prod.snd = ["A", "B", "C", "D", "E", "F", "G", "H", "I", "J",
      "K", "L", "M", "N", "O"] := by
  refine ⟨by decide, rfl, rfl, rfl⟩

/-- Claim C8: for every receiver, dot-separated path and default,
`Config.get` returns the nested value reached by following each key of the
path when every key along the path exists in the object at that level, and
the default as soon as a key is absent or the current value is not an
object (and, being a total function, it never throws). -/
theorem Config.get_spec (c : JSValue) (path : String) (d : JSValue) :
    Config.get c path d = (follow c (splitPath path)).getD d := by
  unfold Config.get
  exact getPath_follow (splitPath path) c d

/-- Claim C9: on a configuration object free of null values (as the
shipped `Config` object is), for every non-empty dot-separated path and
every value, `Config.set` succeeds — materializing missing or non-object
intermediate levels as fresh objects — and an immediate `Config.get` of
the same path returns the value just set, for any default. -/
theorem Config.set_get_roundtrip (fs : List (String × JSValue)) (path : String)
    (v d : JSValue) (hnn : noNullFields fs = true) (hp : path ≠ "") :
    ∃ c2, Config.set (.obj fs) path v = .ok c2 ∧ Config.get c2 path d = v := by
  have hne : splitPath path ≠ [] := splitPath_ne_nil path
  obtain ⟨c2, hset, hget⟩ := setWalk_getPath (splitPath path).dropLast fs
    ((splitPath path).getLastD "") v d hnn
  refine ⟨c2, hset, ?_⟩
  unfold Config.get
  rw [← dropLast_append_getLastD (splitPath path) "" hne]
  exact hget

/-- Witness for C9: on the shipped configuration object, setting the path
SYNC.BATCH_SIZE to 50 and reading it back returns 50. -/
theorem Config.set_get_roundtrip_witness :
    noNullFields configFields = true ∧ ("SYNC.BATCH_SIZE" : String) ≠ "" ∧
    ∃ c2, Config.set (.obj configFields) "SYNC.BATCH_SIZE" (.num 50) = .ok c2 ∧
      Config.get c2 "SYNC.BATCH_SIZE" .null = .num 50 := by
  refine ⟨?_, by decide, ?_⟩
  · simp [configFields, noNullFields, noNull]
  · exact Config.set_get_roundtrip configFields "SYNC.BATCH_SIZE" (.num 50) .null
      (by simp [configFields, noNullFields, noNull]) (by decide)

/-- Claim C10: for every sheet edit event whose edit falls outside the sync
range, `onSheetEdit` returns undefined without invoking the
sheets-to-calendar sync (the invocation flag stays false and no error
handling happens), so no sync state is touched by such an edit. -/
theorem Main.onSheetEdit_ignoresOutOfRange {α : Type} (isEditInSyncRange : α → Bool)
    (syncSheetsToCalendar : α → Except String PassSummary) (e : α)
    (h : isEditInSyncRange e = false) :
    Main.onSheetEdit isEditInSyncRange syncSheetsToCalendar e = (none, false, []) := by
  rw [Main.onSheetEdit, h]
  rfl

/-- Witness for C10: a concrete event outside the sync range produces no
result, no sync invocation and no error-handler call. -/
theorem Main.onSheetEdit_ignoresOutOfRange_witness :
    Main.onSheetEdit (fun _ : Unit => false)
        (fun _ => Except.ok ⟨.completed, Counters.zero⟩) ()
      = (none, false, []) :=
  Main.onSheetEdit_ignoresOutOfRange (fun _ : Unit => false)
    (fun _ => Except.ok ⟨.completed, Counters.zero⟩) () rfl
